import Mathlib

/-!
Shallow embedding of the eval-server source (src/index.ts and
src/unnamed/part_000, two variants of the same HTTP code-evaluation
server) together with proofs about its admission queue, authentication,
code shaping, outbound fetch bridge, SSRF DNS guard, isolate lifecycle
and response truncation.

The two TypeScript files are two revisions of the same ~300-line server;
where their behavior differs a `SrcVariant` parameter selects the file
being modelled.  JavaScript numbers that matter here are small
non-negative integers, modelled as `Nat` (or `Int` for the in-flight
counter which the claims discuss going negative).  Strings are modelled
as Lean `String` over the same character sequences (JS `slice` counts
UTF-16 units; for the code points appearing in the statements below the
two notions agree).
-/

/-- Which of the two source files a definition models: `part000` is
src/unnamed/part_000, `index` is src/index.ts. -/
inductive SrcVariant : Type
  | part000
  | index
deriving DecidableEq

/-! ## Admission queue (src/index.ts lines 78-100, part_000 lines 90-112)

`add` embeds:

    private async add(code: string, msg: any): Promise<any> {
      return new Promise((resolve, reject) => {
        if (this.queue.length > 20) reject("Queue is full");
        this.queue.push({ code, msg, resolve, reject } as Waiter);
        this.process();
      });
    }

(identical in both variants).  The one-shot resolver pair is represented
by the `rejected` flag of the result: `reject` fires exactly when the
guard is taken, and — since there is no `return` or `else` — the push
happens unconditionally afterwards.
-/

/-- A queued unit of work; `msg` is the opaque message payload. -/
structure Waiter where
  code : String
  msg : String
deriving DecidableEq

/-- Outcome of one `add` call: whether `reject("Queue is full")` fired
synchronously inside the executor, and the queue contents afterwards. -/
structure AddResult where
  rejected : Bool
  queue : List Waiter
deriving DecidableEq

/-- Embedding of `add`: the guard `this.queue.length > 20` calls
`reject`, and `this.queue.push(...)` runs unconditionally. -/
def add (queue : List Waiter) (w : Waiter) : AddResult :=
  { rejected := decide (queue.length > 20)
    queue := queue ++ [w] }

/-- Embedding of the consumer loop `process` (index.ts lines 86-100,
part_000 lines 98-112): while the queue is non-empty, shift the head and
run `eval` on its code, delivering outcomes in FIFO order.  The value is
the sequence of code strings executed. -/
def processLoop : List Waiter → List String
  | [] => []
  | next :: rest => next.code :: processLoop rest

theorem processLoop_append (a b : List Waiter) :
    processLoop (a ++ b) = processLoop a ++ processLoop b := by
  induction a with
  | nil => rfl
  | cons x xs ih => simp [processLoop, ih]

/-- C3 (amended): a call to `add` is rejected synchronously with the
QueueFull failure exactly when the queue already holds at least 21
waiters (`queue.length > 20`); in particular a request arriving while
exactly 20 are queued is accepted. -/
theorem add_rejects_iff_queue_exceeds_twenty (q : List Waiter) (w : Waiter) :
    (add q w).rejected = decide (21 ≤ q.length) := rfl

/-- C3 counterexample: with exactly 20 waiters queued, the 21st pending
request is NOT rejected — `add` accepts it, contradicting the claim that
the 21st pending request while 20 are queued is rejected. -/
theorem add_accepts_21st_request_when_20_queued :
    (add (List.replicate 20 ⟨"code", "msg"⟩) ⟨"x", "y"⟩).rejected = false := by
  decide

/-- C4: when the queue-full rejection fires (queue length over 20), the
waiter is nevertheless still appended to the queue, and the consumer
loop therefore still eventually executes its code; the queue state is
not left unchanged by the QueueFull error. -/
theorem overflow_waiter_still_appended_and_processed
    (q : List Waiter) (w : Waiter) (h : 20 < q.length) :
    (add q w).rejected = true ∧
    (add q w).queue = q ++ [w] ∧
    processLoop ((add q w).queue) = processLoop q ++ [w.code] := by
  refine ⟨decide_eq_true h, rfl, ?_⟩
  simp [add, processLoop_append, processLoop]

/-- C4 witness: a concrete over-capacity queue of 21 waiters; the
rejection fires and the new waiter is still appended and processed. -/
theorem overflow_waiter_still_appended_and_processed_witness :
    20 < (List.replicate 21 (⟨"a", "b"⟩ : Waiter)).length ∧
    ((add (List.replicate 21 (⟨"a", "b"⟩ : Waiter)) ⟨"x", "y"⟩).rejected = true ∧
      (add (List.replicate 21 (⟨"a", "b"⟩ : Waiter)) ⟨"x", "y"⟩).queue
        = List.replicate 21 (⟨"a", "b"⟩ : Waiter) ++ [⟨"x", "y"⟩] ∧
      processLoop ((add (List.replicate 21 (⟨"a", "b"⟩ : Waiter)) ⟨"x", "y"⟩).queue)
        = processLoop (List.replicate 21 (⟨"a", "b"⟩ : Waiter)) ++ ["x"]) :=
  ⟨by decide,
    overflow_waiter_still_appended_and_processed
      (List.replicate 21 (⟨"a", "b"⟩ : Waiter)) ⟨"x", "y"⟩ (by decide)⟩

/-! ## Result truncation (part_000 line 194, index.ts line 165)

The end of `eval` delivers the evaluation result truncated by
JavaScript `String.prototype.slice`:

    resolve((result ?? null)?.slice(0, 3000));   // part_000
    return (result ?? null)?.slice(0, 10000);    // index.ts

`slice(0, n)` on a string is the prefix of at most `n` UTF-16 units.
-/

/-- The truncation bound applied to an evaluation result: 3000 in
part_000, 10000 in index.ts. -/
def truncBound : SrcVariant → Nat
  | .part000 => 3000
  | .index => 10000

/-- Embedding of the `slice(0, truncBound)` applied to a string result
at the end of `eval`. -/
def evalResultTruncate (v : SrcVariant) (result : String) : String :=
  ⟨result.data.take (truncBound v)⟩

/-- C2 (amended): the string delivered for a string evaluation result is
a prefix of the stringified guest value of length `min bound len`, where
the bound is 3000 in the part_000 variant but 10000 in the index.ts
variant; only part_000 truncates results longer than 3000 characters to
exactly 3000. -/
theorem eval_result_truncation (v : SrcVariant) (s : String) :
    (evalResultTruncate v s).length = min (truncBound v) s.length ∧
    ∃ rest, s.data = (evalResultTruncate v s).data ++ rest := by
  constructor
  · show (s.data.take (truncBound v)).length = min (truncBound v) s.data.length
    exact List.length_take (truncBound v) s.data
  · exact ⟨s.data.drop (truncBound v), (List.take_append_drop (truncBound v) s.data).symm⟩

/-- C2 counterexample: a 3001-character result evaluated under the
index.ts variant is returned with length 3001, not 3000, contradicting
the claim that every result strictly longer than 3000 characters comes
back with length exactly 3000. -/
theorem index_variant_returns_3001_chars :
    3000 < (String.mk (List.replicate 3001 'a')).length ∧
    (evalResultTruncate .index (String.mk (List.replicate 3001 'a'))).length ≠ 3000 := by
  constructor
  · show 3000 < (List.replicate 3001 'a').length
    rw [List.length_replicate]
    norm_num
  · show (List.take (truncBound .index) (List.replicate 3001 'a')).length ≠ 3000
    rw [List.length_take, List.length_replicate]
    norm_num [truncBound]

/-! ## Code shaper (part_000 lines 172-185, index.ts lines 144-156)

    if (/return|await/.test(code)) {
      code = prelude + `toString((async function evaluate() { ${code} })());`;
      ...
    } else {
      code = prelude + `toString(eval('${code?.replace(/[\\"']/g, "\\$&")}'))`;
    }

(identical in both variants).  `/return|await/.test(code)` is a plain
substring test; the replace escapes every backslash, double quote and
single quote by prefixing a backslash.
-/

/-- Does `needle` occur starting at the head of `hay`? -/
def headMatches : List Char → List Char → Bool
  | [], _ => true
  | _ :: _, [] => false
  | a :: as, b :: bs => a == b && headMatches as bs

/-- Does `needle` occur as a contiguous subsequence of `hay`?  This is
the semantics of `/needle/.test(hay)` for a literal pattern. -/
def hasSeq (needle : List Char) : List Char → Bool
  | [] => needle.isEmpty
  | c :: rest => headMatches needle (c :: rest) || hasSeq needle rest

/-- Embedding of the test `/return|await/.test(code)`. -/
def hasReturnOrAwait (code : String) : Bool :=
  hasSeq "return".data code.data || hasSeq "await".data code.data

/-- Embedding of `code?.replace(/[\\"']/g, "\\$&")`: every backslash,
double quote and single quote is prefixed with a backslash. -/
def escapeCode (code : String) : String :=
  ⟨code.data.flatMap fun c =>
    if c == '\\' || c == '"' || c == Char.ofNat 39 then ['\\', c] else [c]⟩

/-- Embedding of the shaping decision: `shape prelude code` is the final
script text handed to `context.eval`, where `prelude` is the synthesized
preamble (strict mode, `toString`, the embedded `msg` literal). -/
def shape (preludeText code : String) : String :=
  if hasReturnOrAwait code then
    preludeText ++ "toString((async function evaluate() \x7b " ++ code ++ " \x7d)());"
  else
    preludeText ++ "toString(eval(\x27" ++ escapeCode code ++ "\x27))"

/-- C9: the shaper chooses the async-wrapper form exactly when the
unparsed source contains the substring `return` or the substring
`await`, and otherwise the reflective-eval expression form with
backslash, double-quote and single-quote characters escaped in the
embedded literal. -/
theorem shape_selects_wrapper_by_substring (p c : String) :
    (hasReturnOrAwait c = true →
      shape p c = p ++ "toString((async function evaluate() \x7b " ++ c ++ " \x7d)());") ∧
    (hasReturnOrAwait c = false →
      shape p c = p ++ "toString(eval(\x27" ++ escapeCode c ++ "\x27))") := by
  constructor
  · intro h
    simp [shape, h]
  · intro h
    simp [shape, h]

/-- C9 witness: `return 1` contains `return`, so it is shaped into the
async wrapper; `1 + 1` contains neither token, so it is shaped into the
escaped reflective-eval form. -/
theorem shape_selects_wrapper_by_substring_witness :
    hasReturnOrAwait "return 1" = true ∧
    shape "P" "return 1"
      = "P" ++ "toString((async function evaluate() \x7b " ++ "return 1" ++ " \x7d)());" :=
  ⟨by decide, (shape_selects_wrapper_by_substring "P" "return 1").1 (by decide)⟩

/-! ## Authentication (index.ts lines 223-237, part_000 lines 299-313)

    const posessed = Buffer.alloc(5, this.config.auth)
    const provided = Buffer.alloc(5, req.headers.authorization?.replace("Bearer ", ""))
    if (!timingSafeEqual(posessed, provided)) {
      return res.status(418).send({ ... })
    }
    next();

(identical in both variants).  Node's `Buffer.alloc(size, fill)` with a
string fill writes the fill string REPEATEDLY (cyclically) until the
buffer is full — it does not zero-pad short fills; an empty or absent
fill leaves the buffer zero-filled.  `timingSafeEqual` on equal-length
buffers is byte equality.  Inputs below are the byte sequences of the
configured secret and of the provided token after the `"Bearer "`
replacement, as lists of byte values.
-/

/-- `fillN n orig cur` writes `n` further bytes, consuming `cur` and
restarting from `orig` when `cur` runs out; an empty `orig` leaves the
zero fill of `Buffer.alloc`.  `fillN n orig orig` is the content of
`Buffer.alloc(n, orig)`. -/
def fillN : Nat → List Nat → List Nat → List Nat
  | 0, _, _ => []
  | n + 1, orig, [] =>
    match orig with
    | [] => List.replicate (n + 1) 0
    | o :: os => o :: fillN n (o :: os) os
  | n + 1, orig, c :: cs => c :: fillN n orig cs

/-- Embedding of `Buffer.alloc(size, fill)` with a byte-string fill. -/
def bufferAlloc (size : Nat) (fill : List Nat) : List Nat :=
  fillN size fill fill

/-- Embedding of `authenticate`'s comparison: `timingSafeEqual` of the
two five-byte buffers. -/
def authenticate (secret provided : List Nat) : Bool :=
  bufferAlloc 5 secret == bufferAlloc 5 provided

/-- Embedding of `authenticate`'s response: `none` means the middleware
calls `next()`; `some 418` is the teapot rejection. -/
def authStatus (secret provided : List Nat) : Option Nat :=
  if authenticate secret provided then none else some 418

/-- The comparison buffer as the claim describes it: the first five
bytes, zero-padded when the input is shorter than five bytes. -/
def zeroPadTrunc (size : Nat) (s : List Nat) : List Nat :=
  s.take size ++ List.replicate (size - s.length) 0

/-- Authentication as the claim describes it: equality of the
zero-padded-or-truncated five-byte buffers. -/
def authenticateClaimed (secret provided : List Nat) : Bool :=
  zeroPadTrunc 5 secret == zeroPadTrunc 5 provided

theorem fillN_of_le (n : Nat) :
    ∀ (orig l : List Nat), n ≤ l.length → fillN n orig l = l.take n := by
  induction n with
  | zero => intro orig l _; rfl
  | succ n ih =>
    intro orig l h
    cases l with
    | nil => exact absurd h (by simp)
    | cons a as =>
      show a :: fillN n orig as = a :: as.take n
      rw [ih orig as (by simpa using h)]

theorem bufferAlloc_of_le (l : List Nat) (h : 5 ≤ l.length) :
    bufferAlloc 5 l = l.take 5 :=
  fillN_of_le 5 l l h

/-- C5 (amended): the comparison buffers are built by Node's cyclic
`Buffer.alloc` fill (repeating the byte string, zero-filled only when it
is empty), not by zero-padding; for secrets and tokens of at least five
bytes, authentication succeeds exactly when the token's first five bytes
equal the secret's first five bytes, and otherwise the middleware
responds 418. -/
theorem authenticate_first_five_bytes (secret token : List Nat)
    (hs : 5 ≤ secret.length) (ht : 5 ≤ token.length) :
    (authenticate secret token = true ↔ token.take 5 = secret.take 5) ∧
    authStatus secret token = (if token.take 5 = secret.take 5 then none else some 418) := by
  have key : authenticate secret token = true ↔ token.take 5 = secret.take 5 := by
    rw [authenticate, bufferAlloc_of_le secret hs, bufferAlloc_of_le token ht,
      beq_iff_eq]
    exact ⟨fun h => h.symm, fun h => h.symm⟩
  refine ⟨key, ?_⟩
  rw [authStatus]
  by_cases h : token.take 5 = secret.take 5
  · rw [if_pos (key.mpr h), if_pos h]
  · rw [if_neg (fun hc => h (key.mp hc)), if_neg h]

/-- C5 witness: the 6-byte secret 104,117,110,116,50,50 and a 6-byte
token sharing its first five bytes authenticate successfully. -/
theorem authenticate_first_five_bytes_witness :
    5 ≤ ([104, 117, 110, 116, 50, 50] : List Nat).length ∧
    5 ≤ ([104, 117, 110, 116, 50, 99] : List Nat).length ∧
    authenticate [104, 117, 110, 116, 50, 50] [104, 117, 110, 116, 50, 99] = true :=
  ⟨by decide, by decide,
    (authenticate_first_five_bytes [104, 117, 110, 116, 50, 50]
      [104, 117, 110, 116, 50, 99] (by decide) (by decide)).1.mpr (by decide)⟩

/-- C5 counterexample: for the two-byte secret 97,98 ("ab"), the
five-byte token 97,98,97,98,97 ("ababa") is accepted by the code (both
buffers cyclically fill to 97,98,97,98,97) even though under the claim's
zero-padded comparison it differs from the secret's buffer and would
have to be rejected with 418. -/
theorem authenticate_accepts_cyclic_fill_token :
    authenticate [97, 98] [97, 98, 97, 98, 97] = true ∧
    authenticateClaimed [97, 98] [97, 98, 97, 98, 97] = false := by
  decide

/-! ## Outbound fetch bridge (part_000 lines 201-246, index.ts lines 168-208)

    private async fetchImplement(...): Promise<Copy<any>> {
      this.concurrencyCounter++;
      try {
        if (this.concurrencyCounter > this.maxConcurrency) {
          return ... { body: 'Too many requests.', status: 429 } ...
        }
        const res = await fetch(url, { ... });
        return ... { body: ..., status: res.status } ...
      } catch (e) {
        if (e.constructor.name === 'DOMException') {
          return ... { body: 'Request timed out.', status: 408 } ...
        }
        return ... { body: `Request failed - $\x7be.constructor.name\x7d: $\x7be.cause ?? e.message\x7d`, status: 400 } ...
      } finally {
        this.concurrencyCounter--;
      }
    }

The index.ts variant differs in the 400 body, which begins
`Reqest failed - ` (sic).  The behavior of the inner `await fetch` is
abstracted as a `FetchOutcome`: either a response (body and status) or a
rejection carrying the error's constructor name, optional `cause` and
`message`.  Every branch returns a value-copied synthetic response; the
`finally` decrement applies to all of them.
-/

/-- What the inner `await fetch(url, ...)` did: resolved with a decoded
body and status, or rejected with an error of the given constructor
name, `cause` and `message`. -/
inductive FetchOutcome : Type
  | ok (body : String) (status : Nat)
  | fail (kind : String) (cause : Option String) (message : String)
deriving DecidableEq

/-- The value-copied `{body, status}` object the guest receives. -/
structure GuestResponse where
  body : String
  status : Nat
deriving DecidableEq

/-- Start of the 400 failure body: part_000 writes `Request failed - `,
index.ts writes `Reqest failed - ` (sic). -/
def failHead : SrcVariant → String
  | .part000 => "Request failed - "
  | .index => "Reqest failed - "

/-- Embedding of `fetchImplement`: takes the in-flight counter value on
entry and the outcome of the inner fetch, returns the synthetic response
and the counter after the `finally` decrement.  The counter is first
incremented; the 429 guard compares the incremented value against
`maxConcurrency`; the `finally` decrement runs on every path. -/
def fetchImplement (v : SrcVariant) (mx : Nat) (c : Int) (o : FetchOutcome) :
    GuestResponse × Int :=
  let c1 := c + 1
  (if c1 > (mx : Int) then
    { body := "Too many requests.", status := 429 }
  else
    match o with
    | .ok b s => { body := b, status := s }
    | .fail kind cause m =>
      if kind = "DOMException" then
        { body := "Request timed out.", status := 408 }
      else
        { body := failHead v ++ kind ++ ": " ++ cause.getD m, status := 400 },
   c1 - 1)

/-- Embedding of `this.concurrencyCounter = 0` at the end of `eval`
(part_000 line 192, index.ts line 163). -/
def evalEpilogue (_ : Int) : Int := 0

theorem fetchImplement_counter (v : SrcVariant) (mx : Nat) (c : Int) (o : FetchOutcome) :
    (fetchImplement v mx c o).2 = c := by
  simp [fetchImplement]

/-! ### Counter schedules

`concurrencyCounter` is mutated in exactly three places: the `++` at the
start of `fetchImplement` (part_000 line 202, index.ts line 169), the
`--` in its `finally` block (part_000 line 244, index.ts line 206), and
the ` = 0` at the end of `eval` (part_000 line 192, index.ts line 163).
A host-side `fetchImplement` promise is not tied to the isolate, so a
fetch started by the guest can still be in flight when `eval`'s epilogue
runs — the guest can fire and forget (`fetch('http://slow/'); 1`
evaluates via the expression path and settles at once).  On such a
schedule the `finally` decrement runs after the reset.  The event model
below covers arbitrary interleavings of the three mutations. -/

/-- One mutation of `concurrencyCounter`: the increment at
`fetchImplement` entry, the decrement in its `finally`, or the reset at
the end of `eval`. -/
inductive CounterEvent : Type
  | fetchEntry
  | fetchFinally
  | evalReset
deriving DecidableEq

/-- The effect of one counter mutation. -/
def applyCounterEvent (c : Int) : CounterEvent → Int
  | .fetchEntry => c + 1
  | .fetchFinally => c - 1
  | .evalReset => evalEpilogue c

/-- All values taken by the counter along a schedule of mutations,
starting from `c` (the start value included). -/
def counterValues (c : Int) : List CounterEvent → List Int
  | [] => [c]
  | e :: es => c :: counterValues (applyCounterEvent c e) es

/-- Number of `fetchEntry` increments in a schedule. -/
def entryCount : List CounterEvent → Nat
  | [] => 0
  | .fetchEntry :: es => entryCount es + 1
  | _ :: es => entryCount es

/-- Number of `fetchFinally` decrements in a schedule. -/
def finallyCount : List CounterEvent → Nat
  | [] => 0
  | .fetchFinally :: es => finallyCount es + 1
  | _ :: es => finallyCount es

theorem counterValues_nonneg (es : List CounterEvent) :
    ∀ c : Int, 0 ≤ c → CounterEvent.evalReset ∉ es →
    (∀ p, p <+: es → (finallyCount p : Int) ≤ c + entryCount p) →
    (counterValues c es).all (fun x => decide (0 ≤ x)) = true := by
  induction es with
  | nil =>
    intro c h0 _ _
    simp [counterValues, h0]
  | cons e es ih =>
    intro c h0 hnr hb
    have hnr' : CounterEvent.evalReset ∉ es := fun h => hnr (List.mem_cons_of_mem e h)
    have step : ∀ p, p <+: es → (e :: p) <+: (e :: es) := by
      rintro p ⟨t, rfl⟩
      exact ⟨t, rfl⟩
    cases e with
    | fetchEntry =>
      have hb' : ∀ p, p <+: es → (finallyCount p : Int) ≤ (c + 1) + entryCount p := by
        intro p hp
        have := hb _ (step p hp)
        simp [finallyCount, entryCount] at this
        omega
      have := ih (c + 1) (by omega) hnr' hb'
      simp [counterValues, applyCounterEvent, h0, this]
    | fetchFinally =>
      have hc1 : (1 : Int) ≤ c := by
        have := hb [CounterEvent.fetchFinally] ⟨es, rfl⟩
        simpa [finallyCount, entryCount] using this
      have hb' : ∀ p, p <+: es → (finallyCount p : Int) ≤ (c - 1) + entryCount p := by
        intro p hp
        have := hb _ (step p hp)
        simp [finallyCount, entryCount] at this
        omega
      have := ih (c - 1) (by omega) hnr' hb'
      simp [counterValues, applyCounterEvent, h0, this]
    | evalReset => exact absurd (List.mem_cons_self _ _) hnr

/-- C7 (amended): each `fetchImplement` call increments the counter on
entry and decrements it in the `finally` on every path (429 early return
included), so the counter returns to its entry value after every
completed call, and the end of each evaluation resets the counter to 0;
the counter stays non-negative on every schedule in which each fetch
settles within its evaluation — no epilogue reset occurs among the
events and every prefix of the schedule has at least as many entries
(plus the non-negative start value) as `finally` decrements.  A fetch
that outlives its evaluation breaks the last condition and the counter
does go negative (see the counterexample). -/
theorem fetch_counter_balanced_reset_and_nonneg_within_eval
    (v : SrcVariant) (mx : Nat) (c : Int) (o : FetchOutcome)
    (es : List CounterEvent) (h0 : 0 ≤ c)
    (hnr : CounterEvent.evalReset ∉ es)
    (hb : ∀ p ∈ es.inits, (finallyCount p : Int) ≤ c + entryCount p) :
    (fetchImplement v mx c o).2 = c ∧
    applyCounterEvent c CounterEvent.evalReset = 0 ∧
    (counterValues c es).all (fun x => decide (0 ≤ x)) = true := by
  refine ⟨fetchImplement_counter v mx c o, rfl, ?_⟩
  exact counterValues_nonneg es c h0 hnr
    (fun p hp => hb p ((List.mem_inits p es).mpr hp))

/-- C7 witness: two overlapping fetches of one evaluation, entered at
counter 0, with both `finally` decrements before the epilogue: every
observed counter value is non-negative, each call restores its entry
value, and the reset yields 0. -/
theorem fetch_counter_balanced_reset_and_nonneg_within_eval_witness :
    0 ≤ (0 : Int) ∧
    CounterEvent.evalReset ∉ [CounterEvent.fetchEntry, CounterEvent.fetchEntry,
      CounterEvent.fetchFinally, CounterEvent.fetchFinally] ∧
    (∀ p ∈ ([CounterEvent.fetchEntry, CounterEvent.fetchEntry,
        CounterEvent.fetchFinally, CounterEvent.fetchFinally] : List CounterEvent).inits,
      (finallyCount p : Int) ≤ 0 + entryCount p) ∧
    ((fetchImplement .part000 5 0 (.ok "hi" 200)).2 = 0 ∧
      applyCounterEvent 0 CounterEvent.evalReset = 0 ∧
      (counterValues 0 [CounterEvent.fetchEntry, CounterEvent.fetchEntry,
        CounterEvent.fetchFinally, CounterEvent.fetchFinally]).all
          (fun x => decide (0 ≤ x)) = true) :=
  ⟨by decide, by decide, by decide,
    fetch_counter_balanced_reset_and_nonneg_within_eval .part000 5 0 (.ok "hi" 200)
      [CounterEvent.fetchEntry, CounterEvent.fetchEntry,
        CounterEvent.fetchFinally, CounterEvent.fetchFinally]
      (by decide) (by decide) (by decide)⟩

/-- C7 counterexample: a fire-and-forget fetch that outlives its
evaluation — the guest runs `fetch(...); 1`, the evaluation settles and
the epilogue resets the counter to 0 while the host-side fetch is still
in flight, and the later `finally` decrement drives the counter to −1;
so `concurrencyCounter` is not never-negative, contradicting the claim. -/
theorem pending_fetch_decrement_after_reset_goes_negative :
    counterValues 0 [CounterEvent.fetchEntry, CounterEvent.evalReset,
        CounterEvent.fetchFinally]
      = [0, 1, 0, -1] ∧
    (counterValues 0 [CounterEvent.fetchEntry, CounterEvent.evalReset,
        CounterEvent.fetchFinally]).all (fun x => decide (0 ≤ x)) = false := by
  decide

/-- C6 (amended): every failure in the fetch bridge is surfaced to the
guest as a synthetic response with status 429 (counter over cap, body
`Too many requests.`), 408 (`DOMException`, i.e. the 5000 ms abort, body
`Request timed out.`) or 400 (anything else), never as an exception; the
400 body is `<head><ErrorKind>: <cause-if-present-otherwise-message>`,
where `<head>` is `Request failed - ` in part_000 but the misspelled
`Reqest failed - ` in index.ts. -/
theorem fetch_failure_mapping (v : SrcVariant) (mx : Nat) (c : Int)
    (kind : String) (cause : Option String) (m : String) :
    (fetchImplement v mx c (.fail kind cause m)).1
      = (if c + 1 > (mx : Int) then { body := "Too many requests.", status := 429 }
        else if kind = "DOMException" then { body := "Request timed out.", status := 408 }
        else { body := failHead v ++ kind ++ ": " ++ cause.getD m, status := 400 }) ∧
    [400, 408, 429].contains (fetchImplement v mx c (.fail kind cause m)).1.status = true := by
  refine ⟨rfl, ?_⟩
  rw [fetchImplement]
  split
  · rfl
  · split
    · rfl
    · rfl

/-- C6 counterexample: in the index.ts variant, a transport error of
kind `TypeError` with message `boom` produces status 400 with body
`Reqest failed - TypeError: boom`, not the body `Request failed -
TypeError: boom` stated by the claim. -/
theorem index_variant_fetch_error_body_spelling :
    (fetchImplement .index 5 0 (.fail "TypeError" none "boom")).1.status = 400 ∧
    (fetchImplement .index 5 0 (.fail "TypeError" none "boom")).1.body
      = "Reqest failed - TypeError: boom" ∧
    (fetchImplement .index 5 0 (.fail "TypeError" none "boom")).1.body
      ≠ "Request failed - TypeError: boom" := by
  refine ⟨rfl, rfl, ?_⟩
  decide

/-! ## SSRF DNS guard (part_000 lines 254-274, index.ts lines 256-275)

part_000 wires a custom `lookup` into the undici Agent:

    private dnsLookup(hostname, options, cb) {
      dns.lookup(hostname, options, (err, addr, fam) => {
        if (err !== null) { return cb(err); }
        const addresses = Array.isArray(addr) ? addr : [addr];
        try {
          for (const lookupAddress of addresses) {
            const value = ...;
            this.throwIfPrivateIP(value);
          }
        } catch (e) { return cb(e); }
        cb(null, addr, fam);
      });
    }

so a private answer makes the resolver fail and no connection is made.
index.ts instead overrides `Dispatcher.dispatch`:

    dispatch(options, handler) {
      const { hostname } = new URL(options.origin || '');
      dns.lookup(hostname, { all: true }, (err, addresses) => { ...
        for (const { address } of addresses) {
          if (ip.isPrivate(address)) { handler.onError(...); return }
        } });
      this.dispatcher.dispatch(options, handler);
      return true;
    }

`dns.lookup` only schedules its callback; the call
`this.dispatcher.dispatch(options, handler)` on the next line runs
unconditionally (and before the callback can fire), so the underlying
dispatcher — which performs its own name resolution — attempts the
connection regardless of the private-address check.  The classifier
`ip.isPrivate` comes from the external `ip` package and is abstracted as
a predicate parameter.
-/

/-- What the system resolver `dns.lookup` reported for the hostname. -/
inductive LookupOutcome : Type
  | failure (message : String)
  | success (addresses : List String)
deriving DecidableEq

/-- The message of the error thrown by `throwIfPrivateIP` / passed to
`handler.onError` for a blocked address. -/
def disallowedMsg (i : String) : String := "Access to " ++ i ++ " is disallowed"

/-- Embedding of part_000's `dnsLookup` wrapper: propagate resolver
errors, fail on the first private answer, otherwise pass every address
through unchanged. -/
def dnsLookup (isPrivate : String → Bool) : LookupOutcome → LookupOutcome
  | .failure e => .failure e
  | .success addrs =>
    match addrs.find? isPrivate with
    | some a => .failure (disallowedMsg a)
    | none => .success addrs

/-- Observable effects of one call to index.ts's
`EvalDispatcher.dispatch`: whether `handler.onError` is invoked by the
DNS-check callback, and whether the wrapped dispatcher is asked to
perform the connection. -/
structure DispatchResult where
  onErrorCalled : Bool
  connectionAttempted : Bool
deriving DecidableEq

/-- Embedding of index.ts's `EvalDispatcher.dispatch`: the callback
reports an error for a failed lookup or any private answer, but
`this.dispatcher.dispatch(options, handler)` runs unconditionally, so a
connection is attempted on every input. -/
def evalDispatcherDispatch (isPrivate : String → Bool) (lookup : LookupOutcome) :
    DispatchResult :=
  { onErrorCalled :=
      match lookup with
      | .failure _ => true
      | .success addrs => addrs.any isPrivate
    connectionAttempted := true }

/-- C1: for a hostname resolving to a public and a private address,
part_000's `dnsLookup` does fail the resolution (so its fetch fails with
the blocked-address error and never connects), but index.ts's
`EvalDispatcher.dispatch` still hands the request to the underlying
dispatcher — a connection to the target is attempted even though the
private answer is flagged, contradicting the claim for that variant. -/
theorem dispatch_connects_despite_blocked_resolution :
    dnsLookup (fun a => a == "10.0.0.1") (.success ["93.184.216.34", "10.0.0.1"])
      = .failure "Access to 10.0.0.1 is disallowed" ∧
    (evalDispatcherDispatch (fun a => a == "10.0.0.1")
      (.success ["93.184.216.34", "10.0.0.1"])).onErrorCalled = true ∧
    (evalDispatcherDispatch (fun a => a == "10.0.0.1")
      (.success ["93.184.216.34", "10.0.0.1"])).connectionAttempted = true := by
  refine ⟨?_, ?_, rfl⟩
  · decide
  · decide

/-! ## Isolate lifecycle (part_000 lines 114-199)

part_000's `eval` builds the isolate and runs the shaped script through
one promise chain:

    const isolate = new Isolate({ memoryLimit: 8,
      onCatastrophicError: (e) => { reject(e); } });
    const result = await isolate.createContext()
      .then(async (context) => { ... return context.eval(code, { timeout: 5000, promise: true }); })
      .catch((e) => { return ... })
      .finally(() => isolate.dispose());
    this.concurrencyCounter = 0;
    resolve((result ?? null)?.slice(0, 3000));

On success, guest error, host-side error and timeout the chain settles,
the `finally` callback disposes the isolate, and only then does `resolve`
deliver the outcome.  On a catastrophic isolate error, however,
`onCatastrophicError` calls `reject(e)` at the moment of the failure —
delivering the failure to the waiter — while the disposal in `finally`
only runs afterwards, once the inner chain unwinds.  (index.ts's `eval`
has the same chain but no `onCatastrophicError` handler.)  The model
records the order of the observable lifecycle events for each exit path.
-/

/-- How a single evaluation ended: the four paths that settle the
promise chain normally, and the catastrophic isolate failure handled by
`onCatastrophicError`. -/
inductive EvalOutcome : Type
  | success
  | guestError
  | hostError
  | timeout
  | oomCatastrophic
deriving DecidableEq

/-- Observable lifecycle events of one evaluation. -/
inductive LifecycleEvent : Type
  | createIsolate
  | deliver
  | dispose
deriving DecidableEq

/-- Ordered lifecycle events of part_000's `eval` on each exit path:
the `finally` disposal precedes the `resolve` on every path that
settles the chain, while `onCatastrophicError` rejects (delivers the
failure) before the chain can reach its `finally`. -/
def evalEvents : EvalOutcome → List LifecycleEvent
  | .oomCatastrophic => [.createIsolate, .deliver, .dispose]
  | _ => [.createIsolate, .dispose, .deliver]

/-- Does disposal happen strictly before delivery in an event list? -/
def disposeBeforeDeliver : List LifecycleEvent → Bool
  | [] => false
  | .dispose :: _ => true
  | .deliver :: _ => false
  | .createIsolate :: rest => disposeBeforeDeliver rest

/-- C8 (amended): the isolate is disposed on every exit path of the
evaluation, and on the success, guest-error, host-error and timeout
paths it is disposed before the result or failure is delivered; on the
catastrophic path the failure is delivered by `onCatastrophicError`
first and the disposal follows. -/
theorem isolate_disposed_every_path (o : EvalOutcome) :
    (evalEvents o).contains .dispose = true ∧
    disposeBeforeDeliver (evalEvents o) = decide (o ≠ .oomCatastrophic) := by
  cases o <;> exact ⟨rfl, rfl⟩

/-- C8 counterexample: on the catastrophic-error path the isolate is not
disposed before the failure is delivered — `reject` runs in the
catastrophic handler and the `finally` disposal only afterwards,
contradicting the claim for that exit path. -/
theorem catastrophic_error_delivers_before_dispose :
    disposeBeforeDeliver (evalEvents .oomCatastrophic) = false := rfl

/-! ## Outbound request headers and PotatContext (part_000 lines 137-144 and 221-225, index.ts lines 184-187)

part_000 derives the per-request identity payload

    const potatData: EvalPotatData = {
      user: msg?.user,
      channel: msg?.channel,
      id: `$\x7bmsg?.id ?? ""\x7d`,
      timestamp: msg?.timestamp ?? Date.now(),
      isSilent: !!msg?.command?.silent,
      platform: msg?.platform ?? "PotatEval",
    };

and sends every guest fetch with

    headers: { ...options?.headers ?? {},
      'User-Agent': 'Sandbox Unsafe JavaScript Execution Environment - https://github.com/RyanPotat/eval-server/',
      'x-potat-data': JSON.stringify(potatData) }

index.ts builds the same header object but without the `x-potat-data`
entry (and has no `potatData` at all).  Spread semantics make the later
literal keys override any caller-supplied ones.  `JSON.stringify` is a
host builtin and is abstracted as a serialization parameter.
-/

/-- The `command` sub-object of a message; only its `silent` flag is
read by `potatData`. -/
structure Cmd where
  silent : Option Bool
deriving DecidableEq

/-- The caller-supplied message fields read by `potatData`; `user` and
`channel` are opaque JSON payloads. -/
structure Msg where
  user : Option String
  channel : Option String
  id : Option String
  timestamp : Option Int
  platform : Option String
  command : Option Cmd
deriving DecidableEq

/-- The per-request identity payload sent in `x-potat-data`. -/
structure PotatData where
  user : Option String
  channel : Option String
  id : String
  timestamp : Int
  isSilent : Bool
  platform : String
deriving DecidableEq

/-- Embedding of the `potatData` construction; `now` is `Date.now()`. -/
def potatData (now : Int) (msg : Option Msg) : PotatData :=
  { user := msg.bind Msg.user
    channel := msg.bind Msg.channel
    id := (msg.bind Msg.id).getD ""
    timestamp := (msg.bind Msg.timestamp).getD now
    isSilent := ((msg.bind Msg.command).bind Cmd.silent).getD false
    platform := (msg.bind Msg.platform).getD "PotatEval" }

/-- The fixed `User-Agent` value sent on every guest fetch. -/
def uaValue : String :=
  "Sandbox Unsafe JavaScript Execution Environment - https://github.com/RyanPotat/eval-server/"

/-- Lookup in a header object built left to right, where a later entry
for the same key overrides an earlier one (JS object spread). -/
def getHeader : List (String × String) → String → Option String
  | [], _ => none
  | (k, v) :: rest, q =>
    match getHeader rest q with
    | some r => some r
    | none => if q == k then some v else none

/-- Embedding of the header object of the guest-initiated request:
caller headers spread first, then the fixed `User-Agent`, then (in
part_000 only) `x-potat-data` carrying the serialized `potatData`. -/
def requestHeaders (v : SrcVariant) (stringify : PotatData → String)
    (caller : List (String × String)) (pd : PotatData) : List (String × String) :=
  caller ++ [("User-Agent", uaValue)] ++
    (match v with
     | .part000 => [("x-potat-data", stringify pd)]
     | .index => [])

theorem getHeader_append (a b : List (String × String)) (q : String) :
    getHeader (a ++ b) q
      = match getHeader b q with
        | some r => some r
        | none => getHeader a q := by
  induction a with
  | nil =>
    cases h : getHeader b q <;> simp [getHeader, h]
  | cons p rest ih =>
    obtain ⟨k, v⟩ := p
    show (match getHeader (rest ++ b) q with
          | some r => some r
          | none => if q == k then some v else none) = _
    rw [ih]
    cases h : getHeader b q <;> cases h2 : getHeader rest q <;> simp [getHeader, h, h2]

/-- C10 (amended): in the part_000 variant every guest-initiated request
carries the fixed `User-Agent` and an `x-potat-data` header holding the
serialized `potatData`, overriding any caller-supplied values, and the
`potatData` fields default to `id = ""`, `timestamp = now`, `platform =
"PotatEval"`, `isSilent = false` when the message fields are missing;
the index.ts variant sets the same `User-Agent` but no `x-potat-data`
header (a caller-supplied one passes through untouched). -/
theorem request_headers_and_potat_defaults
    (stringify : PotatData → String) (caller : List (String × String))
    (now : Int) (msg : Option Msg) (u ch : Option String) :
    getHeader (requestHeaders .part000 stringify caller (potatData now msg)) "x-potat-data"
      = some (stringify (potatData now msg)) ∧
    getHeader (requestHeaders .part000 stringify caller (potatData now msg)) "User-Agent"
      = some uaValue ∧
    getHeader (requestHeaders .index stringify caller (potatData now msg)) "User-Agent"
      = some uaValue ∧
    getHeader (requestHeaders .index stringify caller (potatData now msg)) "x-potat-data"
      = getHeader caller "x-potat-data" ∧
    potatData now (some ⟨u, ch, none, none, none, none⟩)
      = { user := u, channel := ch, id := "", timestamp := now,
          isSilent := false, platform := "PotatEval" } := by
  refine ⟨?_, ?_, ?_, ?_, rfl⟩ <;>
    simp [requestHeaders, getHeader_append, getHeader]

/-- C10 counterexample: under the index.ts variant a guest fetch with no
caller headers is sent without any `x-potat-data` header, contradicting
the claim that every outbound request carries one. -/
theorem index_variant_omits_potat_header :
    getHeader (requestHeaders .index (fun _ => "ctx") [] (potatData 0 none)) "x-potat-data"
      = none := by
  decide
